import Mathlib

/-!
Verification of the `async-deethon` library (a Deezer download client)
against its natural-language specification.

The Python sources (`async_deethon/utils.py`, `session.py`, `types.py`)
are shallowly embedded below: byte strings become `List Nat` (each entry
a byte value), Python `str` becomes `String` (encoded to bytes via
UTF-8, as `str.encode()` does), fallible code returns `Option`/`Except`,
and the class-level instance caches of `types.py` become explicit state
records threaded through the constructors.  The external crypto
primitives used by `utils.get_stream_url` (`hashlib.md5` and
`Crypto.Cipher.AES` in ECB mode) are implemented concretely (RFC 1321
MD5 and FIPS-197 AES-128).
-/

/-! ## Byte-level primitives -/

/-- UTF-8 encoding of a single character, as `str.encode()` produces. -/
def utf8EncodeChar (c : Char) : List Nat :=
  let n := c.toNat
  if n < 0x80 then [n]
  else if n < 0x800 then
    [0xC0 ||| (n >>> 6), 0x80 ||| (n &&& 0x3F)]
  else if n < 0x10000 then
    [0xE0 ||| (n >>> 12), 0x80 ||| ((n >>> 6) &&& 0x3F), 0x80 ||| (n &&& 0x3F)]
  else
    [0xF0 ||| (n >>> 18), 0x80 ||| ((n >>> 12) &&& 0x3F),
     0x80 ||| ((n >>> 6) &&& 0x3F), 0x80 ||| (n &&& 0x3F)]

/-- The bytes of a Python string, i.e. `s.encode()` (UTF-8). -/
def strBytes (s : String) : List Nat :=
  (s.data.map utf8EncodeChar).flatten

/-- Lower-case hex digit for a value below 16 (as Python produces). -/
def hexDigit (n : Nat) : Char :=
  if n < 10 then Char.ofNat (48 + n) else Char.ofNat (87 + n)

/-- The two hex characters of one byte. -/
def byteHexChars (b : Nat) : List Char :=
  [hexDigit (b / 16), hexDigit (b % 16)]

/-- Lower-case hex string of a byte sequence (`binascii.b2a_hex`). -/
def bytesToHexStr (bs : List Nat) : String :=
  ⟨bs.flatMap byteHexChars⟩

/-- Split a list into consecutive chunks of size `n` (last one may be short). -/
def toChunks (n : Nat) (l : List α) : List (List α) :=
  match n, l with
  | 0, _ => []
  | _ + 1, [] => []
  | m + 1, x :: xs => ((x :: xs).take (m + 1)) :: toChunks (m + 1) ((x :: xs).drop (m + 1))
termination_by l.length
decreasing_by
  simp only [List.length_drop, List.length_cons]
  exact Nat.sub_lt (Nat.succ_pos _) (Nat.succ_pos _)

/-! ## MD5 (RFC 1321), over byte lists -/

namespace MD5

/-- Addition modulo 2^32. -/
def add32 (a b : Nat) : Nat := (a + b) % 4294967296

/-- Bitwise complement within 32 bits (argument below 2^32). -/
def not32 (x : Nat) : Nat := 4294967295 - x

/-- Left-rotation of a 32-bit value by `n` bits. -/
def rotl32 (x n : Nat) : Nat := ((x <<< n) % 4294967296) ||| (x >>> (32 - n))

/-- The 64 sine-derived round constants `⌊|sin(i+1)|·2³²⌋`. -/
def kTable : List Nat := [
  0xd76aa478, 0xe8c7b756, 0x242070db, 0xc1bdceee, 0xf57c0faf, 0x4787c62a, 0xa8304613, 0xfd469501,
  0x698098d8, 0x8b44f7af, 0xffff5bb1, 0x895cd7be, 0x6b901122, 0xfd987193, 0xa679438e, 0x49b40821,
  0xf61e2562, 0xc040b340, 0x265e5a51, 0xe9b6c7aa, 0xd62f105d, 0x02441453, 0xd8a1e681, 0xe7d3fbc8,
  0x21e1cde6, 0xc33707d6, 0xf4d50d87, 0x455a14ed, 0xa9e3e905, 0xfcefa3f8, 0x676f02d9, 0x8d2a4c8a,
  0xfffa3942, 0x8771f681, 0x6d9d6122, 0xfde5380c, 0xa4beea44, 0x4bdecfa9, 0xf6bb4b60, 0xbebfbc70,
  0x289b7ec6, 0xeaa127fa, 0xd4ef3085, 0x04881d05, 0xd9d4d039, 0xe6db99e5, 0x1fa27cf8, 0xc4ac5665,
  0xf4292244, 0x432aff97, 0xab9423a7, 0xfc93a039, 0x655b59c3, 0x8f0ccc92, 0xffeff47d, 0x85845dd1,
  0x6fa87e4f, 0xfe2ce6e0, 0xa3014314, 0x4e0811a1, 0xf7537e82, 0xbd3af235, 0x2ad7d2bb, 0xeb86d391]

/-- The 64 per-round left-rotation amounts. -/
def sTable : List Nat := [
  7, 12, 17, 22, 7, 12, 17, 22, 7, 12, 17, 22, 7, 12, 17, 22,
  5, 9, 14, 20, 5, 9, 14, 20, 5, 9, 14, 20, 5, 9, 14, 20,
  4, 11, 16, 23, 4, 11, 16, 23, 4, 11, 16, 23, 4, 11, 16, 23,
  6, 10, 15, 21, 6, 10, 15, 21, 6, 10, 15, 21, 6, 10, 15, 21]

/-- Little-endian decoding of 4 bytes into a 32-bit word. -/
def leWord (b : List Nat) : Nat :=
  b.getD 0 0 + 256 * b.getD 1 0 + 65536 * b.getD 2 0 + 16777216 * b.getD 3 0

/-- Little-endian encoding of a 32-bit word into 4 bytes. -/
def le4 (n : Nat) : List Nat :=
  [n % 256, n / 256 % 256, n / 65536 % 256, n / 16777216 % 256]

/-- Little-endian encoding of a 64-bit value into 8 bytes. -/
def le8 (n : Nat) : List Nat :=
  (List.range 8).map fun i => n / 256 ^ i % 256

/-- MD5 padding: a 0x80 byte, zeros to 56 mod 64, then the bit length (LE, 64-bit). -/
def padMsg (msg : List Nat) : List Nat :=
  msg ++ [0x80] ++ List.replicate ((120 - (msg.length + 1) % 64) % 64) 0
    ++ le8 (msg.length * 8 % 18446744073709551616)

/-- One of the 64 MD5 rounds, updating the `(a, b, c, d)` state. -/
def step (Mw : List Nat) (st : Nat × Nat × Nat × Nat) (i : Nat) : Nat × Nat × Nat × Nat :=
  let (a, b, c, d) := st
  let fg : Nat × Nat :=
    if i < 16 then ((b &&& c) ||| (not32 b &&& d), i)
    else if i < 32 then ((d &&& b) ||| (not32 d &&& c), (5 * i + 1) % 16)
    else if i < 48 then (b ^^^ c ^^^ d, (3 * i + 5) % 16)
    else (c ^^^ (b ||| not32 d), 7 * i % 16)
  let tmp := add32 (add32 a fg.1) (add32 (kTable.getD i 0) (Mw.getD fg.2 0))
  (d, add32 b (rotl32 tmp (sTable.getD i 0)), b, c)

/-- Process one 64-byte chunk, absorbing it into the running state. -/
def processChunk (st : Nat × Nat × Nat × Nat) (chunk : List Nat) : Nat × Nat × Nat × Nat :=
  let Mw := (toChunks 4 chunk).map leWord
  let r := (List.range 64).foldl (step Mw) st
  (add32 st.1 r.1, add32 st.2.1 r.2.1, add32 st.2.2.1 r.2.2.1, add32 st.2.2.2 r.2.2.2)

/-- The 16-byte MD5 digest of a byte sequence. -/
def digest (msg : List Nat) : List Nat :=
  let r := (toChunks 64 (padMsg msg)).foldl processChunk
    (0x67452301, 0xefcdab89, 0x98badcfe, 0x10325476)
  le4 r.1 ++ le4 r.2.1 ++ le4 r.2.2.1 ++ le4 r.2.2.2

end MD5

/-- `utils.md5hex`: `hashlib.md5(data).hexdigest().encode()` — the ASCII bytes
of the lower-case hex digest. -/
def md5hex (data : List Nat) : List Nat :=
  ((MD5.digest data).flatMap byteHexChars).map Char.toNat

/-! ## AES-128 (FIPS-197), ECB mode, over byte lists -/

namespace AES

/-- The Rijndael substitution box. -/
def sboxTable : List Nat := [
  0x63, 0x7c, 0x77, 0x7b, 0xf2, 0x6b, 0x6f, 0xc5, 0x30, 0x01, 0x67, 0x2b, 0xfe, 0xd7, 0xab, 0x76,
  0xca, 0x82, 0xc9, 0x7d, 0xfa, 0x59, 0x47, 0xf0, 0xad, 0xd4, 0xa2, 0xaf, 0x9c, 0xa4, 0x72, 0xc0,
  0xb7, 0xfd, 0x93, 0x26, 0x36, 0x3f, 0xf7, 0xcc, 0x34, 0xa5, 0xe5, 0xf1, 0x71, 0xd8, 0x31, 0x15,
  0x04, 0xc7, 0x23, 0xc3, 0x18, 0x96, 0x05, 0x9a, 0x07, 0x12, 0x80, 0xe2, 0xeb, 0x27, 0xb2, 0x75,
  0x09, 0x83, 0x2c, 0x1a, 0x1b, 0x6e, 0x5a, 0xa0, 0x52, 0x3b, 0xd6, 0xb3, 0x29, 0xe3, 0x2f, 0x84,
  0x53, 0xd1, 0x00, 0xed, 0x20, 0xfc, 0xb1, 0x5b, 0x6a, 0xcb, 0xbe, 0x39, 0x4a, 0x4c, 0x58, 0xcf,
  0xd0, 0xef, 0xaa, 0xfb, 0x43, 0x4d, 0x33, 0x85, 0x45, 0xf9, 0x02, 0x7f, 0x50, 0x3c, 0x9f, 0xa8,
  0x51, 0xa3, 0x40, 0x8f, 0x92, 0x9d, 0x38, 0xf5, 0xbc, 0xb6, 0xda, 0x21, 0x10, 0xff, 0xf3, 0xd2,
  0xcd, 0x0c, 0x13, 0xec, 0x5f, 0x97, 0x44, 0x17, 0xc4, 0xa7, 0x7e, 0x3d, 0x64, 0x5d, 0x19, 0x73,
  0x60, 0x81, 0x4f, 0xdc, 0x22, 0x2a, 0x90, 0x88, 0x46, 0xee, 0xb8, 0x14, 0xde, 0x5e, 0x0b, 0xdb,
  0xe0, 0x32, 0x3a, 0x0a, 0x49, 0x06, 0x24, 0x5c, 0xc2, 0xd3, 0xac, 0x62, 0x91, 0x95, 0xe4, 0x79,
  0xe7, 0xc8, 0x37, 0x6d, 0x8d, 0xd5, 0x4e, 0xa9, 0x6c, 0x56, 0xf4, 0xea, 0x65, 0x7a, 0xae, 0x08,
  0xba, 0x78, 0x25, 0x2e, 0x1c, 0xa6, 0xb4, 0xc6, 0xe8, 0xdd, 0x74, 0x1f, 0x4b, 0xbd, 0x8b, 0x8a,
  0x70, 0x3e, 0xb5, 0x66, 0x48, 0x03, 0xf6, 0x0e, 0x61, 0x35, 0x57, 0xb9, 0x86, 0xc1, 0x1d, 0x9e,
  0xe1, 0xf8, 0x98, 0x11, 0x69, 0xd9, 0x8e, 0x94, 0x9b, 0x1e, 0x87, 0xe9, 0xce, 0x55, 0x28, 0xdf,
  0x8c, 0xa1, 0x89, 0x0d, 0xbf, 0xe6, 0x42, 0x68, 0x41, 0x99, 0x2d, 0x0f, 0xb0, 0x54, 0xbb, 0x16]

/-- S-box lookup. -/
def sbox (b : Nat) : Nat := sboxTable.getD b 0

/-- Multiplication by 2 in GF(2^8) with the AES reduction polynomial. -/
def g2 (b : Nat) : Nat := (b <<< 1) % 256 ^^^ (if 128 ≤ b then 0x1b else 0)

/-- Multiplication by 3 in GF(2^8). -/
def g3 (b : Nat) : Nat := g2 b ^^^ b

/-- Byte-wise XOR of two equal-length byte lists. -/
def xorBytes (a b : List Nat) : List Nat := List.zipWith (· ^^^ ·) a b

/-- SubBytes step. -/
def subBytes (s : List Nat) : List Nat := s.map sbox

/-- ShiftRows step on the flat column-major 16-byte state. -/
def shiftRows (s : List Nat) : List Nat :=
  [0, 5, 10, 15, 4, 9, 14, 3, 8, 13, 2, 7, 12, 1, 6, 11].map fun i => s.getD i 0

/-- MixColumns on a single 4-byte column. -/
def mixCol (a : List Nat) : List Nat :=
  let a0 := a.getD 0 0
  let a1 := a.getD 1 0
  let a2 := a.getD 2 0
  let a3 := a.getD 3 0
  [g2 a0 ^^^ g3 a1 ^^^ a2 ^^^ a3,
   a0 ^^^ g2 a1 ^^^ g3 a2 ^^^ a3,
   a0 ^^^ a1 ^^^ g2 a2 ^^^ g3 a3,
   g3 a0 ^^^ a1 ^^^ a2 ^^^ g2 a3]

/-- MixColumns on the whole state. -/
def mixColumns (s : List Nat) : List Nat := (toChunks 4 s).flatMap mixCol

/-- Round constants for the key schedule. -/
def rcon : List Nat := [0x01, 0x02, 0x04, 0x08, 0x10, 0x20, 0x40, 0x80, 0x1b, 0x36]

/-- The transformation applied to the previous word at a 4-word boundary:
rotate, substitute, and add the round constant. -/
def coreWord (i : Nat) (w : List Nat) : List Nat :=
  let rot := w.drop 1 ++ w.take 1
  let sub := rot.map sbox
  xorBytes sub [rcon.getD (i / 4 - 1) 0, 0, 0, 0]

/-- AES-128 key expansion: the 44 schedule words (4 bytes each). -/
def expandKey (key : List Nat) : List (List Nat) :=
  (List.range 40).foldl
    (fun ws i =>
      let j := i + 4
      let prev := ws.getD (j - 1) []
      let t := if j % 4 = 0 then coreWord j prev else prev
      ws ++ [xorBytes (ws.getD (j - 4) []) t])
    (toChunks 4 key)

/-- Encrypt one 16-byte block with AES-128. -/
def encryptBlock (key block : List Nat) : List Nat :=
  let ws := expandKey key
  let rk := fun (r : Nat) => ((ws.drop (4 * r)).take 4).flatten
  let st0 := xorBytes block (rk 0)
  let stMid := (List.range 9).foldl
    (fun st r => xorBytes (mixColumns (shiftRows (subBytes st))) (rk (r + 1))) st0
  xorBytes (shiftRows (subBytes stMid)) (rk 10)

/-- ECB-mode encryption (no IV): each 16-byte block independently. -/
def ecbEncrypt (key data : List Nat) : List Nat :=
  (toChunks 16 data).flatMap (encryptBlock key)

end AES

/-! ## The `Track` record (`types.Track`)

A Python instance attribute that has not been assigned yet is modelled
by the field's default value (`none` for the extended tags, which the
class only annotates and `add_more_tags` later assigns; zero/empty for
the core fields assigned by `__init__`).  The parsed `release_date`
(a `datetime`) and the float-formatted `replaygain_track_gain` are not
referenced by any claim and are modelled as the raw strings they come
from. -/

structure Track where
  id : Nat := 0
  album_id : Nat := 0
  artist : String := ""
  artists : List String := []
  bpm : Nat := 0
  disk_number : Nat := 0
  duration : Nat := 0
  isrc : String := ""
  link : String := ""
  number : Nat := 0
  preview_link : String := ""
  rank : Nat := 0
  release_date : String := ""
  title : String := ""
  title_short : String := ""
  md5_origin : Option String := none
  media_version : Option String := none
  composer : Option (List String) := none
  author : Option (List String) := none
  copyright : Option String := none
  lyrics : Option String := none
  lyrics_sync : Option String := none
  lyrics_copyrights : Option String := none
  lyrics_writers : Option (List String) := none
deriving Repr, DecidableEq

/-! ## `utils.get_quality` and `utils.get_stream_url` -/

/-- `utils.get_quality`: quality code for a bitrate label. -/
def get_quality (bitrate : String) : String :=
  if bitrate = "FLAC" then "9"
  else if bitrate = "MP3_320" then "3"
  else if bitrate = "MP3_256" then "5"
  else "1"

/-- `utils.get_stream_url`: derive the direct download URL for a track.
`none` models the Python exceptions: `AttributeError` when `md5_origin`
or `media_version` was never assigned (is `None`), and `IndexError` on
`track.md5_origin[0]` when the origin hash is the empty string. -/
def get_stream_url (track : Track) (quality : String) : Option String :=
  match track.md5_origin, track.media_version with
  | some md5_origin, some media_version =>
    let data := List.intercalate [0xa4]
      [strBytes md5_origin, strBytes quality, strBytes (toString track.id), strBytes media_version]
    let data2 := List.intercalate [0xa4] [md5hex data, data] ++ [0xa4]
    let data3 := if data2.length % 16 ≠ 0
      then data2 ++ List.replicate (16 - data2.length % 16) 0 else data2
    let hashs := bytesToHexStr (AES.ecbEncrypt (strBytes "jo6aey6haid2Teih") data3)
    match md5_origin.data with
    | [] => none
    | c0 :: _ =>
      some ("http://e-cdn-proxy-" ++ String.singleton c0 ++ ".dzcdn.net/api/1/" ++ hashs)
  | _, _ => none

/-- `deriveUrl`, written step by step after the specification's §4.3
(StreamUrlCodec): (1) concatenate origin hash, quality code, decimal
track ID and media version with the single separator byte 0xA4;
(2) prepend the hexadecimal MD5 digest of that concatenation joined by
the same separator, and append a trailing separator; (3) right-pad with
zero bytes to the next multiple of 16; (4) encrypt with the fixed
16-byte key in AES ECB mode with no IV; (5) hex-encode the ciphertext
and embed it in the URL template whose host segment carries the first
character of the origin hash. -/
def deriveUrl (originHash mediaVersion : String) (trackId : Nat) (qualityCode : String) :
    Option String :=
  match originHash.data with
  | [] => none
  | c :: _ =>
    let step1 := strBytes originHash ++ [0xa4] ++ strBytes qualityCode ++ [0xa4]
      ++ strBytes (toString trackId) ++ [0xa4] ++ strBytes mediaVersion
    let step2 := md5hex step1 ++ [0xa4] ++ step1 ++ [0xa4]
    let step3 := step2 ++ List.replicate ((16 - step2.length % 16) % 16) 0
    let step4 := AES.ecbEncrypt (strBytes "jo6aey6haid2Teih") step3
    let step5 := bytesToHexStr step4
    some ("http://e-cdn-proxy-" ++ String.singleton c ++ ".dzcdn.net/api/1/" ++ step5)

/-- Interleaving four segments with a separator is their separated
concatenation. -/
lemma intercalate_four (s a b c d : List Nat) :
    List.intercalate s [a, b, c, d] = a ++ s ++ b ++ s ++ c ++ s ++ d := by
  simp [List.intercalate, List.intersperse, List.append_assoc]

/-- Interleaving two segments with a separator is their separated
concatenation. -/
lemma intercalate_two (s a b : List Nat) :
    List.intercalate s [a, b] = a ++ s ++ b := by
  simp [List.intercalate, List.intersperse, List.append_assoc]

/-- The source's conditional padding equals unconditional padding by
`(16 - len % 16) % 16` zero bytes. -/
lemma pad16_eq (d : List Nat) :
    (if d.length % 16 ≠ 0 then d ++ List.replicate (16 - d.length % 16) 0 else d)
      = d ++ List.replicate ((16 - d.length % 16) % 16) 0 := by
  by_cases h : d.length % 16 = 0
  · simp [h]
  · have hlt : 16 - d.length % 16 < 16 := by omega
    simp [h, Nat.mod_eq_of_lt hlt]

/-- C1: for every track with set origin hash and media version, every
quality code and every track ID, `get_stream_url` builds its plaintext
byte-for-byte as specified — the four fields joined by the separator
byte 0xA4, the hex MD5 digest prepended with the same separator and a
trailing separator appended, the result zero-padded to a multiple of
16, encrypted with the fixed key "jo6aey6haid2Teih" in AES-ECB with no
IV — and embeds the hex ciphertext in a URL whose host segment carries
the first character of the origin hash. -/
theorem get_stream_url_correct (t : Track) (q h v : String)
    (hh : t.md5_origin = some h) (hv : t.media_version = some v) :
    get_stream_url t q = deriveUrl h v t.id q := by
  unfold get_stream_url deriveUrl
  rw [hh, hv]
  cases hd : h.data with
  | nil => simp only [hd]
  | cons c cs =>
    simp only [hd, intercalate_four, intercalate_two]
    rw [pad16_eq]

/-- Witness for C1 at the specification's golden-vector inputs. -/
theorem get_stream_url_correct_witness :
    get_stream_url { id := 12345, md5_origin := some "abc123", media_version := some "1" } "3"
      = deriveUrl "abc123" "1" 12345 "3" :=
  get_stream_url_correct _ "3" "abc123" "1" rfl rfl

/-- C7: the quality-code mapping returns "9" for FLAC, "3" for MP3_320,
"5" for MP3_256, and "1" for MP3_128 and every other label. -/
theorem get_quality_mapping :
    get_quality "FLAC" = "9" ∧ get_quality "MP3_320" = "3" ∧
    get_quality "MP3_256" = "5" ∧ get_quality "MP3_128" = "1" ∧
    ∀ s : String, s ≠ "FLAC" → s ≠ "MP3_320" → s ≠ "MP3_256" → get_quality s = "1" := by
  refine ⟨rfl, rfl, rfl, rfl, fun s h1 h2 h3 => ?_⟩
  simp [get_quality, h1, h2, h3]

/-- Witness for C7's default branch at an unrecognized label. -/
theorem get_quality_mapping_witness : get_quality "OGG_VORBIS" = "1" :=
  get_quality_mapping.2.2.2.2 "OGG_VORBIS" (by decide) (by decide) (by decide)

/-! ## `Session.get_api` token-refresh decision (session.py lines 96-99) -/

/-- Modelled from the spec: the identity-lookup private-API method name
held by the `consts` module, which is not among the sources; only its
identity (one fixed method name distinct from the others) matters. -/
def METHOD_GET_USER : String := "deezer.getUserData"

/-- Modelled from the spec: the page-track private-API method name used
for extended-tag hydration, held by the missing `consts` module. -/
def METHOD_PAGE_TRACK : String := "deezer.pageTrack"

/-- The refresh decision of `Session.get_api` as the source computes it:
`not method == consts.METHOD_GET_USER and (not self._csrf_token or
self._session_expires > time.time())`.  Timestamps are modelled as
naturals; an empty CSRF token is Python-falsy. -/
def get_api_refresh (method csrf_token : String) (session_expires now : Nat) : Bool :=
  decide (method ≠ METHOD_GET_USER) &&
    (decide (csrf_token = "") || decide (now < session_expires))

/-- The refresh policy as the claim states it: refresh exactly when the
token is absent or the current time is already at or past the stored
expiry (`now ≥ expiresAt`). -/
def claimed_refresh (method csrf_token : String) (session_expires now : Nat) : Bool :=
  decide (method ≠ METHOD_GET_USER) &&
    (decide (csrf_token = "") || decide (session_expires ≤ now))

/-- C2 (code-bug evidence): with a non-empty token whose stored expiry
100 already lies in the past at time 200, the source performs no
refresh although the claimed policy demands one; conversely at time 50,
while the token is still valid, the source refreshes although the
claimed policy forbids it.  The comparison in the source is inverted. -/
theorem get_api_refresh_bug :
    get_api_refresh METHOD_PAGE_TRACK "tok" 100 200 = false ∧
    claimed_refresh METHOD_PAGE_TRACK "tok" 100 200 = true ∧
    get_api_refresh METHOD_PAGE_TRACK "tok" 100 50 = true ∧
    claimed_refresh METHOD_PAGE_TRACK "tok" 100 50 = false := by
  decide

/-! ## `Session.search_songs` (session.py lines 63-93) -/

/-- An artist object inside a legacy-search result. -/
structure RawArtist where
  name : String
deriving Repr, DecidableEq

/-- The album object nested inside a legacy track search result. -/
structure RawAlbumOfTrack where
  title : String
  cover_medium : String
deriving Repr, DecidableEq

/-- One element of the legacy `search/album` response's `data` array. -/
structure RawAlbum where
  title : String
  artist : RawArtist
  cover_medium : String
  link : String
deriving Repr, DecidableEq

/-- One element of the legacy `search` response's `data` array. -/
structure RawTrack where
  title : String
  artist : RawArtist
  album : RawAlbumOfTrack
  link : String
deriving Repr, DecidableEq

/-- The album summary record `search_songs` projects each album to. -/
structure AlbumSummary where
  album_title : String
  singer_name : String
  album_photo_medium : String
  link : String
deriving Repr, DecidableEq

/-- The track summary record `search_songs` projects each track to. -/
structure TrackSummary where
  music_title : String
  singer_name : String
  album_title : String
  album_photo_medium : String
  link : String
deriving Repr, DecidableEq

/-- Python slice `l[:n]` for an `int` bound: from the front for a
non-negative bound, relative to the end for a negative one. -/
def pySliceTo (l : List α) (n : Int) : List α :=
  l.take (if 0 ≤ n then n.toNat else ((l.length : Int) + n).toNat)

/-- The projection `search_songs` applies to a raw album element. -/
def albumSummaryOf (e : RawAlbum) : AlbumSummary :=
  { album_title := e.title, singer_name := e.artist.name,
    album_photo_medium := e.cover_medium, link := e.link }

/-- The projection `search_songs` applies to a raw track element. -/
def trackSummaryOf (e : RawTrack) : TrackSummary :=
  { music_title := e.title, singer_name := e.artist.name,
    album_title := e.album.title, album_photo_medium := e.album.cover_medium,
    link := e.link }

/-- `Session.search_songs`, given the two provider result arrays the
concurrent `_find_albums`/`_find_tracks` calls delivered: truncate the
albums to `albums_count`, the tracks to `songs_limit - albums_count`,
and project each element to its summary record. -/
def search_songs (albums : List RawAlbum) (tracks : List RawTrack)
    (albums_count songs_limit : Int) : List AlbumSummary × List TrackSummary :=
  let albums2 := pySliceTo albums albums_count
  let tracks2 := pySliceTo tracks (songs_limit - albums_count)
  (albums2.map albumSummaryOf, tracks2.map trackSummaryOf)

/-- C9: for every pair of provider result lists and limits (album limit
non-negative and at most the total limit), `search_songs` returns the
first `albumLimit` album results and the first `totalLimit - albumLimit`
track results, projected in provider-delivered order; with limits 3/50
on 10 albums and 10 tracks it returns exactly 3 albums and at most 47
tracks. -/
theorem search_songs_truncates (albums : List RawAlbum) (tracks : List RawTrack)
    (a t : Int) (ha : 0 ≤ a) (hat : a ≤ t) :
    (search_songs albums tracks a t).1 = (albums.take a.toNat).map albumSummaryOf ∧
    (search_songs albums tracks a t).2 = (tracks.take (t - a).toNat).map trackSummaryOf ∧
    (albums.length = 10 → tracks.length = 10 →
      (search_songs albums tracks 3 50).1.length = 3 ∧
      (search_songs albums tracks 3 50).2.length ≤ 47) := by
  refine ⟨?_, ?_, fun hA hT => ⟨?_, ?_⟩⟩
  · simp [search_songs, pySliceTo, ha]
  · simp [search_songs, pySliceTo, show (0 : Int) ≤ t - a by omega]
  · simp [search_songs, pySliceTo, List.length_take, hA]
  · simp [search_songs, pySliceTo, List.length_take, hT]

/-- A placeholder album result used by the C9 witness. -/
def sampleRawAlbum : RawAlbum :=
  { title := "al", artist := ⟨"ar"⟩, cover_medium := "cm", link := "ln" }

/-- A placeholder track result used by the C9 witness. -/
def sampleRawTrack : RawTrack :=
  { title := "tr", artist := ⟨"ar"⟩, album := ⟨"al", "cm"⟩, link := "ln" }

/-- Witness for C9 on ten placeholder albums and tracks with the
documented limits 3 and 50. -/
theorem search_songs_truncates_witness :
    (search_songs (List.replicate 10 sampleRawAlbum)
      (List.replicate 10 sampleRawTrack) 3 50).1.length = 3 :=
  ((search_songs_truncates _ _ 3 50 (by decide) (by decide)).2.2
    (by simp) (by simp)).1

/-! ## `Session.download` URL dispatch (session.py lines 135-150)

The source matches the URL against the regular expression
`https?://(?:www\.)?deezer\.com/(?:\w+/)?(\w+)/(\d+)` with `re.match`
(anchored at the start, a prefix match) and converts the second group
with `int(...)`.  The pattern is a `str` pattern, so `\w` and `\d` are
Python's Unicode-aware classes (word characters: Unicode alphanumerics
plus underscore; digits: Unicode category Nd), and `int` maps each
decimal-digit character to its digit value.  Those classes are external
Unicode tables, so the embedding is parameterized over them — `isW`
for `\w`, `isD` for `\d`, and `digitVal` for `int`'s per-character
digit value — and the dispatch theorem assumes only the two facts
about the classes its control flow relies on, both true of Python's
classes: `/` is not a word character, and every digit is a word
character.

Because no word character is `/` and nothing follows the final `\d+`,
Python's greedy backtracking collapses to the deterministic procedure
below: each `\w+` before a literal `/` must be the maximal word-run,
and the optional `(?:\w+/)?` group is tried first (greedy) and retried
empty only when the rest of the pattern fails after it. -/

/-- Consume an expected literal prefix, returning the remainder. -/
def dropLit : List Char → List Char → Option (List Char)
  | [], cs => some cs
  | _ :: _, [] => none
  | l :: ls, c :: cs => if c = l then dropLit ls cs else none

/-- The tail of the regex after the host: `(?:\w+/)?(\w+)/(\d+)`, for
word class `isW` and digit class `isD`.  Returns the captured
`(mode, digits)` groups on success. -/
def matchModeId (isW isD : Char → Bool) (r : List Char) :
    Option (List Char × List Char) :=
  match r.takeWhile isW, r.dropWhile isW with
  | _ :: _, '/' :: r5 =>
    match r5.takeWhile isW, r5.dropWhile isW with
    | _ :: _, '/' :: r6 =>
      let digits := r6.takeWhile isD
      if digits.isEmpty then
        let digits2 := r5.takeWhile isD
        if digits2.isEmpty then none
        else some (r.takeWhile isW, digits2)
      else some (r5.takeWhile isW, digits)
    | _, _ =>
      let digits2 := r5.takeWhile isD
      if digits2.isEmpty then none
      else some (r.takeWhile isW, digits2)
  | _, _ => none

/-- The full anchored match of the download regex on a character list:
literal scheme (with optional `s`), optional `www.`, the literal host,
then the mode and ID groups over the given character classes. -/
def matchDeezer (isW isD : Char → Bool) (cs : List Char) :
    Option (List Char × List Char) :=
  match dropLit ['h', 't', 't', 'p'] cs with
  | none => none
  | some r0 =>
    let r1 := match r0 with
      | 's' :: t => t
      | t => t
    match dropLit [':', '/', '/'] r1 with
    | none => none
    | some r2 =>
      let r3 := match dropLit ['w', 'w', 'w', '.'] r2 with
        | some t => t
        | none => r2
      match dropLit ['d', 'e', 'e', 'z', 'e', 'r', '.', 'c', 'o', 'm', '/'] r3 with
      | none => none
      | some r4 => matchModeId isW isD r4

/-- Conversion of a digit-character run to a number, as `int(...)`:
positional base-10 accumulation of each character's digit value. -/
def digitsToNat (digitVal : Char → Nat) (ds : List Char) : Nat :=
  ds.foldl (fun acc c => 10 * acc + digitVal c) 0

/-- The four outcomes of `Session.download`'s dispatch: the track path,
the album path, `ActionNotSupported(mode)`, or `InvalidUrlError(url)`. -/
inductive DownloadDispatch where
  | track (id : Nat)
  | album (id : Nat)
  | actionNotSupported (mode : String)
  | invalidUrl (url : String)
deriving Repr, DecidableEq

/-- `Session.download`'s dispatch decision over the given character
classes: on a regex match, route by the mode group with the numeric
ID; otherwise raise `InvalidUrlError`. -/
def download_dispatch (isW isD : Char → Bool) (digitVal : Char → Nat)
    (url : String) : DownloadDispatch :=
  match matchDeezer isW isD url.data with
  | some (mode, digits) =>
    let content_id := digitsToNat digitVal digits
    if mode = "track".data then .track content_id
    else if mode = "album".data then .album content_id
    else .actionNotSupported ⟨mode⟩
  | none => .invalidUrl url

/-- A provider URL assembled from its shape components:
`http(s)://(www.)?deezer.com/(<locale>/)?<kind>/<digits>`. -/
def mkDeezerUrl (secure www : Bool) (locale : Option String) (kind digits : String) : String :=
  "http" ++ (if secure then "s" else "") ++ "://" ++ (if www then "www." else "")
    ++ "deezer.com/"
    ++ (match locale with | some l => l ++ "/" | none => "")
    ++ kind ++ "/" ++ digits

/-- The ASCII fragment of the `\w` class (letters, digits,
underscore): one valid instantiation of `isW`, used by the witness. -/
def asciiWordChar (c : Char) : Bool := c.isAlphanum || c = '_'

/-- The ASCII fragment of the `\d` class, an instantiation of `isD`. -/
def asciiDigitChar (c : Char) : Bool := c.isDigit

/-- The digit value of an ASCII digit character, the corresponding
instantiation of `digitVal`. -/
def asciiDigitVal (c : Char) : Nat := c.toNat - 48

/-- Consuming a literal prefix it carries succeeds with the remainder. -/
lemma dropLit_self_append (pre rest : List Char) : dropLit pre (pre ++ rest) = some rest := by
  induction pre with
  | nil => rfl
  | cons p ps ih => simp [dropLit, ih]

/-- `takeWhile`/`dropWhile` split a list at the first failing element. -/
lemma takeWhile_dropWhile_append (p : Char → Bool) (xs : List Char) (y : Char) (ys : List Char)
    (hxs : ∀ c ∈ xs, p c) (hy : p y = false) :
    (xs ++ y :: ys).takeWhile p = xs ∧ (xs ++ y :: ys).dropWhile p = y :: ys := by
  induction xs with
  | nil => simp [List.takeWhile, List.dropWhile, hy]
  | cons x xs ih =>
    have hx : p x = true := hxs x (by simp)
    have ih2 := ih fun c hc => hxs c (by simp [hc])
    simp [List.takeWhile, List.dropWhile, hx, ih2.1, ih2.2]

/-- `takeWhile` keeps a list all of whose elements satisfy the test. -/
lemma takeWhile_all (p : Char → Bool) (xs : List Char) (hxs : ∀ c ∈ xs, p c) :
    xs.takeWhile p = xs ∧ xs.dropWhile p = [] := by
  induction xs with
  | nil => simp
  | cons x xs ih =>
    have hx : p x = true := hxs x (by simp)
    have ih2 := ih fun c hc => hxs c (by simp [hc])
    simp [List.takeWhile, List.dropWhile, hx, ih2.1, ih2.2]

/-- `matchModeId` on a locale-free tail `kind/digits` captures the kind
and the digits (the greedy optional group is retried empty), for any
classes where `/` is not a word character and digits are word
characters. -/
lemma matchModeId_no_locale (isW isD : Char → Bool) (kind digits : List Char)
    (hS : isW '/' = false) (hDW : ∀ c, isD c = true → isW c = true)
    (hk : ∀ c ∈ kind, isW c) (hk0 : kind ≠ [])
    (hd : ∀ c ∈ digits, isD c) (hd0 : digits ≠ []) :
    matchModeId isW isD (kind ++ '/' :: digits) = some (kind, digits) := by
  obtain ⟨k, ks, rfl⟩ := List.exists_cons_of_ne_nil hk0
  obtain ⟨d, ds, rfl⟩ := List.exists_cons_of_ne_nil hd0
  obtain ⟨e1, e2⟩ := takeWhile_dropWhile_append isW (k :: ks) '/' (d :: ds) hk hS
  obtain ⟨f1, f2⟩ := takeWhile_all isW (d :: ds) fun c hc => hDW c (hd c hc)
  obtain ⟨g1, -⟩ := takeWhile_all isD (d :: ds) hd
  simp only [List.cons_append] at e1 e2
  simp [matchModeId, e1, e2, f1, f2, g1]

/-- `matchModeId` on a tail `locale/kind/digits` captures the kind and
the digits (the greedy optional group eats the locale segment). -/
lemma matchModeId_locale (isW isD : Char → Bool) (loc kind digits : List Char)
    (hS : isW '/' = false)
    (hl : ∀ c ∈ loc, isW c) (hl0 : loc ≠ [])
    (hk : ∀ c ∈ kind, isW c) (hk0 : kind ≠ [])
    (hd : ∀ c ∈ digits, isD c) (hd0 : digits ≠ []) :
    matchModeId isW isD (loc ++ '/' :: (kind ++ '/' :: digits)) = some (kind, digits) := by
  obtain ⟨l, ls, rfl⟩ := List.exists_cons_of_ne_nil hl0
  obtain ⟨k, ks, rfl⟩ := List.exists_cons_of_ne_nil hk0
  obtain ⟨d, ds, rfl⟩ := List.exists_cons_of_ne_nil hd0
  obtain ⟨e1, e2⟩ := takeWhile_dropWhile_append isW (l :: ls) '/'
    ((k :: ks) ++ '/' :: (d :: ds)) hl hS
  obtain ⟨f1, f2⟩ := takeWhile_dropWhile_append isW (k :: ks) '/' (d :: ds) hk hS
  obtain ⟨g1, -⟩ := takeWhile_all isD (d :: ds) hd
  simp only [List.cons_append] at e1 e2 f1 f2
  simp [matchModeId, e1, e2, f1, f2, g1]

/-- Two strings are equal exactly when their character lists are. -/
lemma str_data_eq_iff (s t : String) : s.data = t.data ↔ s = t :=
  ⟨String.ext, fun h => h ▸ rfl⟩

/-- C6: for any word/digit classes under which `/` is not a word
character and every digit is a word character (Python's Unicode `\w`
and `\d` among them), `Session.download` dispatches every well-formed
provider URL `http(s)://(www.)?deezer.com/(locale/)?<kind>/<digits>`
to the track path when the kind segment is `track` (with the numeric
ID), to the album path when it is `album`, and to
`ActionNotSupported(kind)` for any other kind segment; every string
the URL regex does not match raises `InvalidUrlError` carrying the
URL. -/
theorem download_dispatch_correct :
    ∀ (isW isD : Char → Bool) (digitVal : Char → Nat),
      isW '/' = false →
      (∀ c, isD c = true → isW c = true) →
      (∀ (secure www : Bool) (locale : Option String) (kind digits : String),
        (∀ c ∈ kind.data, isW c) → kind ≠ "" →
        (∀ c ∈ digits.data, isD c) → digits ≠ "" →
        (∀ l, locale = some l → (∀ c ∈ l.data, isW c) ∧ l ≠ "") →
        download_dispatch isW isD digitVal (mkDeezerUrl secure www locale kind digits) =
          (if kind = "track" then .track (digitsToNat digitVal digits.data)
           else if kind = "album" then .album (digitsToNat digitVal digits.data)
           else .actionNotSupported kind)) ∧
      (∀ url : String, matchDeezer isW isD url.data = none →
        download_dispatch isW isD digitVal url = .invalidUrl url) := by
  intro isW isD digitVal hS hDW
  constructor
  · intro secure www locale kind digits hk hk0 hd hd0 hloc
    have hk0' : kind.data ≠ [] := fun h => hk0 (String.ext h)
    have hd0' : digits.data ≠ [] := fun h => hd0 (String.ext h)
    have hmm : matchDeezer isW isD (mkDeezerUrl secure www locale kind digits).data
        = some (kind.data, digits.data) := by
      rcases locale with - | l
      · have h1 := matchModeId_no_locale isW isD kind.data digits.data hS hDW
          hk hk0' hd hd0'
        cases secure <;> cases www <;>
          simp [mkDeezerUrl, matchDeezer, dropLit, String.data_append, h1]
      · obtain ⟨hlw, hl0⟩ := hloc l rfl
        have hl0' : l.data ≠ [] := fun h => hl0 (String.ext h)
        have h1 := matchModeId_locale isW isD l.data kind.data digits.data hS
          hlw hl0' hk hk0' hd hd0'
        cases secure <;> cases www <;>
          simp [mkDeezerUrl, matchDeezer, dropLit, String.data_append, h1]
    unfold download_dispatch
    rw [hmm]
    by_cases ht : kind = "track"
    · simp [str_data_eq_iff, ht]
    · by_cases ha : kind = "album"
      · simp [str_data_eq_iff, ht, ha]
      · have ht' : kind.data ≠ ['t', 'r', 'a', 'c', 'k'] := fun h => ht (String.ext h)
        have ha' : kind.data ≠ ['a', 'l', 'b', 'u', 'm'] := fun h => ha (String.ext h)
        simp [ht, ha, ht', ha']
  · intro url h
    unfold download_dispatch
    rw [h]

/-- Witness for C6: under the ASCII instantiation of the classes, the
canonical track URL dispatches to the track path with its numeric ID. -/
theorem download_dispatch_correct_witness :
    download_dispatch asciiWordChar asciiDigitChar asciiDigitVal
      (mkDeezerUrl true false none "track" "123") = DownloadDispatch.track 123 := by
  have hDW : ∀ c, asciiDigitChar c = true → asciiWordChar c = true := by
    intro c h
    simp only [asciiDigitChar] at h
    simp [asciiWordChar, Char.isAlphanum, h]
  have h := (download_dispatch_correct asciiWordChar asciiDigitChar asciiDigitVal
    (by decide) hDW).1 true false none "track" "123"
    (by decide) (by decide) (by decide) (by decide) (fun l hl => Option.noConfusion hl)
  simpa [digitsToNat, asciiDigitVal] using h


/-! ## `Track.add_more_tags` (types.py lines 317-348) -/

/-- Python exceptions surfaced by the embedded fallible operations. -/
inductive PyError where
  | keyError
  | attributeError
  | indexError
  | deezerApiError (etype message : String) (code : Nat)
  | downloadError (track_id : Nat)
deriving Repr, DecidableEq

/-- The two JSON shapes of the `SNG_CONTRIBUTORS` field: a bare
sequence, or a mapping read with `.get("composer")`/`.get("author")`. -/
inductive Contributors where
  | raw (entries : List String)
  | mapping (composer author : Option (List String))
deriving Repr, DecidableEq

/-- The optional `LYRICS` section of a page-track response; each field
is read with `.get`, the sync JSON is kept as a raw string. -/
structure LyricsSection where
  text : Option String
  sync : Option String
  copyrights : Option String
  writers : Option String
deriving Repr, DecidableEq

/-- The fields of the page-track private-API response (`r["DATA"]` and
the optional `r["LYRICS"]`) that `add_more_tags` reads. -/
structure PageTrackResp where
  md5_origin : String
  media_version : String
  contributors : Contributors
  copyright : String
  lyrics : Option LyricsSection
deriving Repr, DecidableEq

/-- Scanner for `str.split(sep)` with a non-empty separator
`s0 :: sr`: cut at each leftmost separator occurrence, accumulating the
current piece in reverse. -/
def pySplitAux (s0 : Char) (sr : List Char) (cs acc : List Char) : List (List Char) :=
  match cs with
  | [] => [acc.reverse]
  | c :: cs2 =>
    if (s0 :: sr).isPrefixOf (c :: cs2)
    then acc.reverse :: pySplitAux s0 sr ((c :: cs2).drop (sr.length + 1)) []
    else pySplitAux s0 sr cs2 (c :: acc)
termination_by cs.length
decreasing_by
  · simp only [List.length_drop, List.length_cons]
    omega
  · simp

/-- Python `s.split(sep)` for a non-empty separator (the source only
splits on the literal `", "`). -/
def pySplit (s sep : String) : List String :=
  match sep.data with
  | [] => [s]
  | s0 :: sr => (pySplitAux s0 sr s.data []).map fun l => ⟨l⟩

/-- `Track.add_more_tags`: overwrite origin hash, media version and
copyright; normalize the contributor shapes; set the lyrics fields from
a present `LYRICS` section (`AttributeError` models
`None.split(", ")` when `LYRICS_WRITERS` is absent) and clear all four
otherwise. -/
def add_more_tags (t : Track) (r : PageTrackResp) : Except PyError Track :=
  let t1 := { t with md5_origin := some r.md5_origin, media_version := some r.media_version }
  let t2 := match r.contributors with
    | .raw _ => { t1 with composer := none, author := none }
    | .mapping c a => { t1 with composer := c, author := a }
  let t3 := { t2 with copyright := some r.copyright }
  match r.lyrics with
  | some L =>
    match L.writers with
    | none => .error .attributeError
    | some w =>
      .ok { t3 with lyrics := L.text, lyrics_sync := L.sync,
                    lyrics_copyrights := L.copyrights,
                    lyrics_writers := some (pySplit w ", ") }
  | none =>
    .ok { t3 with lyrics := none, lyrics_sync := none,
                  lyrics_copyrights := none, lyrics_writers := none }

/-- The composer/author pair the claim expects: unset for a raw
sequence, the mapping's entries otherwise. -/
def normContrib : Contributors → Option (List String) × Option (List String)
  | .raw _ => (none, none)
  | .mapping c a => (c, a)

/-- C8: hydration sets composer and author to the unset state when the
contributor field is a raw sequence and to the mapping's entries
otherwise; it sets the lyrics fields only when a `LYRICS` section is
present — splitting the comma-space-delimited writer string into a
sequence — and otherwise explicitly clears all four lyrics fields. -/
theorem add_more_tags_normalizes (t : Track) (r : PageTrackResp) :
    (r.lyrics = none →
      add_more_tags t r = .ok { t with
        md5_origin := some r.md5_origin,
        media_version := some r.media_version,
        composer := (normContrib r.contributors).1,
        author := (normContrib r.contributors).2,
        copyright := some r.copyright,
        lyrics := none, lyrics_sync := none,
        lyrics_copyrights := none, lyrics_writers := none }) ∧
    (∀ L w, r.lyrics = some L → L.writers = some w →
      add_more_tags t r = .ok { t with
        md5_origin := some r.md5_origin,
        media_version := some r.media_version,
        composer := (normContrib r.contributors).1,
        author := (normContrib r.contributors).2,
        copyright := some r.copyright,
        lyrics := L.text, lyrics_sync := L.sync,
        lyrics_copyrights := L.copyrights,
        lyrics_writers := some (pySplit w ", ") }) := by
  constructor
  · intro hnone
    cases hc : r.contributors <;> simp [add_more_tags, hnone, normContrib, hc]
  · intro L w hsome hw
    cases hc : r.contributors <;> simp [add_more_tags, hsome, hw, normContrib, hc]

/-- A concrete page-track response for the C8 witness: raw-sequence
contributors and a lyrics section with two comma-separated writers. -/
def samplePageTrackResp : PageTrackResp :=
  { md5_origin := "m5", media_version := "7", contributors := .raw ["x"],
    copyright := "c", lyrics := some ⟨some "la", none, none, some "A, B"⟩ }

/-- The track state expected after hydrating a blank track with
`samplePageTrackResp`. -/
def sampleHydratedTrack : Track :=
  { md5_origin := some "m5", media_version := some "7", composer := none,
    author := none, copyright := some "c", lyrics := some "la",
    lyrics_sync := none, lyrics_copyrights := none,
    lyrics_writers := some ["A", "B"] }

/-- Witness for C8 at a concrete response with a lyrics section. -/
theorem add_more_tags_normalizes_witness :
    add_more_tags {} samplePageTrackResp = .ok sampleHydratedTrack := by
  have h := (add_more_tags_normalizes {} samplePageTrackResp).2
    ⟨some "la", none, none, some "A, B"⟩ "A, B" rfl rfl
  rw [h]
  simp [samplePageTrackResp, sampleHydratedTrack, normContrib, pySplit, pySplitAux]

/-! ## `Session.download_track` (session.py lines 152-202)

The streaming transport is modelled as a function from the requested
URL to its response; the page-track response `r` models what the
private API returns for this track (the same payload on every
hydration call).  Each invocation re-runs `add_more_tags` and derives
the stream URL before issuing the GET, and on a zero declared content
length retries at the next lower bitrate of the fixed chain. -/

/-- A streaming GET response: the declared `Content-Length` and the
chunk sequence `iter_chunks` delivers. -/
structure DlResp where
  contentLength : Nat
  chunks : List (List Nat)

/-- The observable outcome of a `download_track` call tree: its result,
the number of `add_more_tags` hydration calls issued, and the track
states handed to `get_stream_url`, in call order. -/
structure DlResult where
  result : Except PyError (List Nat)
  hydrations : Nat
  urlTracks : List Track

/-- Position of a bitrate in the fallback chain (for termination). -/
def bitrateRank : String → Nat
  | "FLAC" => 3
  | "MP3_320" => 2
  | "MP3_256" => 1
  | _ => 0

/-- The fixed bitrate degradation chain. -/
def bitrateChain : List String := ["FLAC", "MP3_320", "MP3_256", "MP3_128"]

/-- `Session.download_track`: hydrate, derive the URL, GET; on zero
content length fall back FLAC → MP3_320 → MP3_256 → MP3_128 and raise
`DownloadError(track.id)` beyond the chain's end; otherwise accumulate
the chunks into one buffer. -/
def download_track (t : Track) (bitrate : String) (r : PageTrackResp)
    (net : String → DlResp) : DlResult :=
  let quality := get_quality bitrate
  match add_more_tags t r with
  | .error e => { result := .error e, hydrations := 1, urlTracks := [] }
  | .ok t2 =>
    match get_stream_url t2 quality with
    | none => { result := .error .indexError, hydrations := 1, urlTracks := [t2] }
    | some download_url =>
      let resp := net download_url
      if resp.contentLength = 0 then
        if _hb1 : bitrate = "FLAC" then
          let rest := download_track t "MP3_320" r net
          { result := rest.result, hydrations := rest.hydrations + 1,
            urlTracks := t2 :: rest.urlTracks }
        else if _hb2 : bitrate = "MP3_320" then
          let rest := download_track t "MP3_256" r net
          { result := rest.result, hydrations := rest.hydrations + 1,
            urlTracks := t2 :: rest.urlTracks }
        else if _hb3 : bitrate = "MP3_256" then
          let rest := download_track t "MP3_128" r net
          { result := rest.result, hydrations := rest.hydrations + 1,
            urlTracks := t2 :: rest.urlTracks }
        else
          { result := .error (.downloadError t.id), hydrations := 1, urlTracks := [t2] }
      else
        { result := .ok resp.chunks.flatten, hydrations := 1, urlTracks := [t2] }
termination_by bitrateRank bitrate
decreasing_by
  · subst _hb1; decide
  · subst _hb2; decide
  · subst _hb3; decide

/-- A nonzero content length ends the call with the accumulated chunk
buffer, one hydration and one URL derivation, at every bitrate. -/
lemma download_track_base (t : Track) (b : String) (r : PageTrackResp)
    (net : String → DlResp) (t2 : Track) (uq : String)
    (hok : add_more_tags t r = .ok t2)
    (hu : get_stream_url t2 (get_quality b) = some uq)
    (hcl : (net uq).contentLength ≠ 0) :
    download_track t b r net =
      { result := .ok (net uq).chunks.flatten, hydrations := 1, urlTracks := [t2] } := by
  unfold download_track
  simp [hok, hu, hcl]

/-- A zero content length at a chain bitrate recurses at the next lower
bitrate, adding one hydration and one URL derivation. -/
lemma download_track_fallback (t : Track) (b bnext : String) (r : PageTrackResp)
    (net : String → DlResp) (t2 : Track) (uq : String)
    (hok : add_more_tags t r = .ok t2)
    (hu : get_stream_url t2 (get_quality b) = some uq)
    (hcl : (net uq).contentLength = 0)
    (hb : b = "FLAC" ∧ bnext = "MP3_320" ∨ b = "MP3_320" ∧ bnext = "MP3_256" ∨
      b = "MP3_256" ∧ bnext = "MP3_128") :
    download_track t b r net =
      { result := (download_track t bnext r net).result,
        hydrations := (download_track t bnext r net).hydrations + 1,
        urlTracks := t2 :: (download_track t bnext r net).urlTracks } := by
  rcases hb with ⟨rfl, rfl⟩ | ⟨rfl, rfl⟩ | ⟨rfl, rfl⟩ <;>
    (conv_lhs => unfold download_track) <;> simp [hok, hu, hcl]

/-- A zero content length at a bitrate outside the first three chain
positions raises `DownloadError` with the track ID, with no retry. -/
lemma download_track_dead_end (t : Track) (b : String) (r : PageTrackResp)
    (net : String → DlResp) (t2 : Track) (uq : String)
    (hok : add_more_tags t r = .ok t2)
    (hu : get_stream_url t2 (get_quality b) = some uq)
    (hcl : (net uq).contentLength = 0)
    (h1 : b ≠ "FLAC") (h2 : b ≠ "MP3_320") (h3 : b ≠ "MP3_256") :
    download_track t b r net =
      { result := .error (.downloadError t.id), hydrations := 1, urlTracks := [t2] } := by
  unfold download_track
  simp [hok, hu, hcl, h1, h2, h3]

/-- A track whose origin hash is set and non-empty and whose media
version is set yields a stream URL at every quality code. -/
lemma get_stream_url_some (t2 : Track) (h0 v : String)
    (hh : t2.md5_origin = some h0) (hv : t2.media_version = some v)
    (hne : h0 ≠ "") (q : String) : ∃ u, get_stream_url t2 q = some u := by
  obtain ⟨c, cs, hd⟩ : ∃ c cs, h0.data = c :: cs := by
    cases hdd : h0.data with
    | nil => exact absurd (String.ext hdd) hne
    | cons c cs => exact ⟨c, cs, rfl⟩
  unfold get_stream_url
  rw [hh, hv]
  simp only [hd]
  exact ⟨_, rfl⟩

/-- A derivable stream URL forces the extended fields to be set. -/
lemma stream_url_fields_set (t2 : Track) (q u : String)
    (h : get_stream_url t2 q = some u) :
    t2.md5_origin.isSome ∧ t2.media_version.isSome := by
  unfold get_stream_url at h
  cases hm : t2.md5_origin <;> cases hv : t2.media_version <;>
    rw [hm, hv] at h <;> simp_all

/-- C3: starting from FLAC, `download_track` returns the body of the
first bitrate in the chain FLAC → MP3_320 → MP3_256 → MP3_128 whose
response declares a nonzero content length, stepping down one bitrate
per zero-length response, and raises `DownloadError` with the track ID
when the whole chain is exhausted — the fallback is bounded by the
4-element chain and is the only retry performed. -/
theorem download_track_fallback_chain (t : Track) (r : PageTrackResp)
    (net : String → DlResp) (t2 : Track) (uOf : String → String)
    (hok : add_more_tags t r = .ok t2)
    (hu : ∀ q, get_stream_url t2 q = some (uOf q)) :
    (download_track t "FLAC" r net).result =
      (match bitrateChain.find?
          (fun b => decide ((net (uOf (get_quality b))).contentLength ≠ 0)) with
        | some b => .ok (net (uOf (get_quality b))).chunks.flatten
        | none => .error (.downloadError t.id)) := by
  by_cases c9 : (net (uOf (get_quality "FLAC"))).contentLength = 0
  · rw [download_track_fallback t "FLAC" "MP3_320" r net t2 _ hok (hu _) c9 (by simp)]
    by_cases c3 : (net (uOf (get_quality "MP3_320"))).contentLength = 0
    · rw [download_track_fallback t "MP3_320" "MP3_256" r net t2 _ hok (hu _) c3 (by simp)]
      by_cases c5 : (net (uOf (get_quality "MP3_256"))).contentLength = 0
      · rw [download_track_fallback t "MP3_256" "MP3_128" r net t2 _ hok (hu _) c5 (by simp)]
        by_cases c1 : (net (uOf (get_quality "MP3_128"))).contentLength = 0
        · rw [download_track_dead_end t "MP3_128" r net t2 _ hok (hu _) c1
            (by decide) (by decide) (by decide)]
          simp [bitrateChain, List.find?, c9, c3, c5, c1]
        · rw [download_track_base t "MP3_128" r net t2 _ hok (hu _) c1]
          simp [bitrateChain, List.find?, c9, c3, c5, c1]
      · rw [download_track_base t "MP3_256" r net t2 _ hok (hu _) c5]
        simp [bitrateChain, List.find?, c9, c3, c5]
    · rw [download_track_base t "MP3_320" r net t2 _ hok (hu _) c3]
      simp [bitrateChain, List.find?, c9, c3]
  · rw [download_track_base t "FLAC" r net t2 _ hok (hu _) c9]
    simp [bitrateChain, List.find?, c9]

/-- A minimal track (ID 7) for the download witnesses. -/
def wTrack : Track := { id := 7 }

/-- A minimal page-track response (no lyrics section) for the download
witnesses. -/
def wResp : PageTrackResp :=
  { md5_origin := "m5", media_version := "1",
    contributors := .mapping none none, copyright := "c", lyrics := none }

/-- The hydrated state of `wTrack` after `add_more_tags` with `wResp`. -/
def wHyd : Track :=
  { id := 7, md5_origin := some "m5", media_version := some "1",
    copyright := some "c" }

/-- Witness for C3: a server with no asset at any quality (content
length 0 everywhere) exhausts the chain and raises `DownloadError(7)`. -/
theorem download_track_fallback_chain_witness :
    (download_track wTrack "FLAC" wResp (fun _ => ⟨0, []⟩)).result
      = .error (.downloadError 7) := by
  have hu : ∀ q, get_stream_url wHyd q = some ((get_stream_url wHyd q).getD "") := by
    intro q
    obtain ⟨u, h⟩ := get_stream_url_some wHyd "m5" "1" rfl rfl (by decide) q
    rw [h]
    rfl
  have h := download_track_fallback_chain wTrack wResp (fun _ => ⟨0, []⟩) wHyd
    (fun q => (get_stream_url wHyd q).getD "") rfl hu
  rw [h]
  simp [bitrateChain, wTrack]

/-- C10: every `download_track` invocation performs exactly one
hydration call and one URL derivation per attempt — even when the
track's extended tags are already set — so a download that steps down
through `k` bitrates issues `k + 1` hydration calls, and every track
state handed to `get_stream_url` has its origin hash and media version
set. -/
theorem download_track_hydrations (t : Track) (r : PageTrackResp)
    (net : String → DlResp) (t2 : Track) (uOf : String → String)
    (hok : add_more_tags t r = .ok t2)
    (hu : ∀ q, get_stream_url t2 q = some (uOf q)) :
    (∀ b, (download_track t b r net).hydrations
        = (download_track t b r net).urlTracks.length ∧
      1 ≤ (download_track t b r net).hydrations ∧
      ∀ t3 ∈ (download_track t b r net).urlTracks,
        t3.md5_origin.isSome ∧ t3.media_version.isSome) ∧
    (∀ b, (net (uOf (get_quality b))).contentLength ≠ 0 →
      (download_track t b r net).hydrations = 1) ∧
    ((download_track t "FLAC" r net).hydrations =
      min 4 ((bitrateChain.takeWhile
        (fun b => decide ((net (uOf (get_quality b))).contentLength = 0))).length + 1)) := by
  have hset := stream_url_fields_set t2 "9" (uOf "9") (hu "9")
  have Hother : ∀ b, b ≠ "FLAC" → b ≠ "MP3_320" → b ≠ "MP3_256" →
      (download_track t b r net).hydrations = 1 ∧
      (download_track t b r net).urlTracks = [t2] := by
    intro b h1 h2 h3
    by_cases hcl : (net (uOf (get_quality b))).contentLength = 0
    · rw [download_track_dead_end t b r net t2 _ hok (hu _) hcl h1 h2 h3]
      exact ⟨rfl, rfl⟩
    · rw [download_track_base t b r net t2 _ hok (hu _) hcl]
      exact ⟨rfl, rfl⟩
  have QofPair : ∀ b, (download_track t b r net).hydrations = 1 ∧
      (download_track t b r net).urlTracks = [t2] →
      ((download_track t b r net).hydrations
          = (download_track t b r net).urlTracks.length ∧
        1 ≤ (download_track t b r net).hydrations ∧
        ∀ t3 ∈ (download_track t b r net).urlTracks,
          t3.md5_origin.isSome ∧ t3.media_version.isSome) := by
    intro b hp
    rw [hp.1, hp.2]
    refine ⟨rfl, le_refl 1, ?_⟩
    intro t3 ht3
    rw [List.mem_singleton.mp ht3]
    exact hset
  have Qchain : ∀ b bnext,
      ((download_track t bnext r net).hydrations
          = (download_track t bnext r net).urlTracks.length ∧
        1 ≤ (download_track t bnext r net).hydrations ∧
        ∀ t3 ∈ (download_track t bnext r net).urlTracks,
          t3.md5_origin.isSome ∧ t3.media_version.isSome) →
      (b = "FLAC" ∧ bnext = "MP3_320" ∨ b = "MP3_320" ∧ bnext = "MP3_256" ∨
        b = "MP3_256" ∧ bnext = "MP3_128") →
      ((download_track t b r net).hydrations
          = (download_track t b r net).urlTracks.length ∧
        1 ≤ (download_track t b r net).hydrations ∧
        ∀ t3 ∈ (download_track t b r net).urlTracks,
          t3.md5_origin.isSome ∧ t3.media_version.isSome) := by
    intro b bnext Qn hb
    by_cases hcl : (net (uOf (get_quality b))).contentLength = 0
    · rw [download_track_fallback t b bnext r net t2 _ hok (hu _) hcl hb]
      obtain ⟨q1, q2, q3⟩ := Qn
      refine ⟨by simp [q1], by simp, ?_⟩
      intro t3 ht3
      rcases List.mem_cons.mp ht3 with h | hmem
      · rw [h]; exact hset
      · exact q3 t3 hmem
    · exact QofPair b (by rw [download_track_base t b r net t2 _ hok (hu _) hcl]; exact ⟨rfl, rfl⟩)
  have Q128 := QofPair "MP3_128" (Hother "MP3_128" (by decide) (by decide) (by decide))
  have Q256 := Qchain "MP3_256" "MP3_128" Q128 (by simp)
  have Q320 := Qchain "MP3_320" "MP3_256" Q256 (by simp)
  have QFLAC := Qchain "FLAC" "MP3_320" Q320 (by simp)
  refine ⟨?_, ?_, ?_⟩
  · intro b
    by_cases b1 : b = "FLAC"
    · rw [b1]; exact QFLAC
    by_cases b2 : b = "MP3_320"
    · rw [b2]; exact Q320
    by_cases b3 : b = "MP3_256"
    · rw [b3]; exact Q256
    exact QofPair b (Hother b b1 b2 b3)
  · intro b hcl
    rw [download_track_base t b r net t2 _ hok (hu _) hcl]
  · by_cases c9 : (net (uOf (get_quality "FLAC"))).contentLength = 0
    · rw [download_track_fallback t "FLAC" "MP3_320" r net t2 _ hok (hu _) c9 (by simp)]
      by_cases c3 : (net (uOf (get_quality "MP3_320"))).contentLength = 0
      · rw [download_track_fallback t "MP3_320" "MP3_256" r net t2 _ hok (hu _) c3 (by simp)]
        by_cases c5 : (net (uOf (get_quality "MP3_256"))).contentLength = 0
        · rw [download_track_fallback t "MP3_256" "MP3_128" r net t2 _ hok (hu _) c5 (by simp)]
          by_cases c1 : (net (uOf (get_quality "MP3_128"))).contentLength = 0
          · rw [download_track_dead_end t "MP3_128" r net t2 _ hok (hu _) c1
              (by decide) (by decide) (by decide)]
            simp [bitrateChain, c9, c3, c5, c1]
          · rw [download_track_base t "MP3_128" r net t2 _ hok (hu _) c1]
            simp [bitrateChain, c9, c3, c5, c1]
        · rw [download_track_base t "MP3_256" r net t2 _ hok (hu _) c5]
          simp [bitrateChain, c9, c3, c5]
      · rw [download_track_base t "MP3_320" r net t2 _ hok (hu _) c3]
        simp [bitrateChain, c9, c3]
    · rw [download_track_base t "FLAC" r net t2 _ hok (hu _) c9]
      simp [bitrateChain, c9]

/-- Witness for C10: with assets available at FLAC immediately, the
download performs exactly one hydration call. -/
theorem download_track_hydrations_witness :
    (download_track wTrack "FLAC" wResp (fun _ => ⟨5, [[1, 2]]⟩)).hydrations = 1 := by
  have hu : ∀ q, get_stream_url wHyd q = some ((get_stream_url wHyd q).getD "") := by
    intro q
    obtain ⟨u, h⟩ := get_stream_url_some wHyd "m5" "1" rfl rfl (by decide) q
    rw [h]
    rfl
  exact (download_track_hydrations wTrack wResp (fun _ => ⟨5, [[1, 2]]⟩) wHyd
    (fun q => (get_stream_url wHyd q).getD "") rfl hu).2.1 "FLAC" (by decide)

/-! ## The class-level instance caches of `types.py` (C4, C5)

`Track._cache` and `Album._cache` are class variables mapping provider
IDs to instances.  Instances are modelled as references (allocation
numbers) into explicit stores, so that Python aliasing — a mutation
through one reference being visible through every other reference to
the same instance — is observable.  `__new__` looks up `info["id"]`
and allocates or returns the cached reference *before* `__init__`
validates the payload, mirroring the source's order of operations. -/

/-- The provider error object of an entity-lookup error payload. -/
structure ApiErrorPayload where
  etype : String
  message : String
  code : Nat
deriving Repr, DecidableEq

/-- The core per-track fields `Track.__init__` assigns (the plain
subset the claims reference). -/
structure TrackCore where
  album_id : Nat
  artist : String
  title : String
deriving Repr, DecidableEq

/-- A public-API track payload: the `id` key (absent from provider
error responses), the optional `error` object, and the core fields. -/
structure TrackInfo where
  id : Option Nat
  error : Option ApiErrorPayload
  core : TrackCore
deriving Repr, DecidableEq

/-- A public-API album payload, including the raw member-track
summaries that `fetch_tracks` later materializes. -/
structure AlbumInfo where
  id : Option Nat
  error : Option ApiErrorPayload
  artist : String
  title : String
  tracks_data : List TrackInfo
deriving Repr, DecidableEq

/-- An `Album` instance's modelled attributes. -/
structure AlbumObj where
  id : Nat := 0
  artist : String := ""
  title : String := ""
  basic_tracks_data : List TrackInfo := []
deriving Repr, DecidableEq

/-- The process-wide mutable state: allocation counter, the two
ID→reference caches, and the reference→instance stores. -/
structure CacheState where
  next : Nat
  trackCache : List (Nat × Nat)
  trackStore : List (Nat × Track)
  albumCache : List (Nat × Nat)
  albumStore : List (Nat × AlbumObj)
deriving Repr, DecidableEq

/-- The initial empty state. -/
def CacheState.empty : CacheState := ⟨0, [], [], [], []⟩

/-- Overwrite the value stored under a key of an association list. -/
def assocSet (k : Nat) (v : α) (l : List (Nat × α)) : List (Nat × α) :=
  l.map fun p => if p.1 = k then (k, v) else p

/-- `Track(track_info)` = `Track.__new__` + `Track.__init__`
(types.py 254-302): read `track_info["id"]` (`KeyError` when absent),
return the cached reference or allocate and cache a blank instance,
then validate the error payload — raising `DeezerApiError` with the
provider's type, message and code — and otherwise (re)assign the core
fields, leaving extended tags untouched. -/
def track_construct (info : TrackInfo) (s : CacheState) :
    CacheState × Except PyError Nat :=
  match info.id with
  | none => (s, .error .keyError)
  | some i =>
    let alloc : CacheState × Nat :=
      match s.trackCache.lookup i with
      | some ref => (s, ref)
      | none =>
        let s2 :=
          { s with
            next := s.next + 1
            trackCache := (i, s.next) :: s.trackCache
            trackStore := (s.next, {}) :: s.trackStore }
        (s2, s.next)
    match info.error with
    | some e => (alloc.1, .error (.deezerApiError e.etype e.message e.code))
    | none =>
      let old := (alloc.1.trackStore.lookup alloc.2).getD {}
      let updated :=
        { old with
          id := i
          album_id := info.core.album_id
          artist := info.core.artist
          title := info.core.title }
      let s3 := { alloc.1 with trackStore := assocSet alloc.2 updated alloc.1.trackStore }
      (s3, .ok alloc.2)

/-- `Album(album_info)` = `Album.__new__` + `Album.__init__`
(types.py 95-143), identical shape to the track constructor. -/
def album_construct (info : AlbumInfo) (s : CacheState) :
    CacheState × Except PyError Nat :=
  match info.id with
  | none => (s, .error .keyError)
  | some i =>
    let alloc : CacheState × Nat :=
      match s.albumCache.lookup i with
      | some ref => (s, ref)
      | none =>
        let s2 :=
          { s with
            next := s.next + 1
            albumCache := (i, s.next) :: s.albumCache
            albumStore := (s.next, {}) :: s.albumStore }
        (s2, s.next)
    match info.error with
    | some e => (alloc.1, .error (.deezerApiError e.etype e.message e.code))
    | none =>
      let old := (alloc.1.albumStore.lookup alloc.2).getD {}
      let updated :=
        { old with
          id := i
          artist := info.artist
          title := info.title
          basic_tracks_data := info.tracks_data }
      let s3 := { alloc.1 with albumStore := assocSet alloc.2 updated alloc.1.albumStore }
      (s3, .ok alloc.2)

/-- Construct a `Track` per raw summary, left to right; the first
exception aborts the comprehension. -/
def tracks_construct : List TrackInfo → CacheState → CacheState × Except PyError (List Nat)
  | [], s => (s, .ok [])
  | info :: rest, s =>
    match track_construct info s with
    | (s1, .error e) => (s1, .error e)
    | (s1, .ok ref) =>
      match tracks_construct rest s1 with
      | (s2, .error e) => (s2, .error e)
      | (s2, .ok refs) => (s2, .ok (ref :: refs))

/-- `Album.fetch_tracks`: materialize a `Track` per member summary
already embedded in the album payload (no extra network call). -/
def fetch_tracks (albumRef : Nat) (s : CacheState) :
    CacheState × Except PyError (List Nat) :=
  tracks_construct ((s.albumStore.lookup albumRef).getD {}).basic_tracks_data s

/-- `track.add_more_tags(...)` through a reference: hydrate the stored
instance and write it back, so every alias of the instance sees it. -/
def hydrate_ref (ref : Nat) (r : PageTrackResp) (s : CacheState) :
    CacheState × Except PyError Unit :=
  match add_more_tags ((s.trackStore.lookup ref).getD {}) r with
  | .error e => (s, .error e)
  | .ok t2 => ({ s with trackStore := assocSet ref t2 s.trackStore }, .ok ())

/-- The page-track response shapes on which hydration succeeds (a
lyrics section, when present, carries its writer string). -/
def hydShapeOk (r : PageTrackResp) : Bool :=
  match r.lyrics with
  | some L => L.writers.isSome
  | none => true

/-- The hydration result on a response without a lyrics section. -/
lemma add_more_tags_eq_none (t : Track) (r : PageTrackResp) (hl : r.lyrics = none) :
    add_more_tags t r = .ok
      { t with
        md5_origin := some r.md5_origin
        media_version := some r.media_version
        composer := (normContrib r.contributors).1
        author := (normContrib r.contributors).2
        copyright := some r.copyright
        lyrics := none
        lyrics_sync := none
        lyrics_copyrights := none
        lyrics_writers := none } := by
  cases hc : r.contributors <;> simp [add_more_tags, normContrib, hl, hc]

/-- The hydration result on a response with a lyrics section carrying
its writer string. -/
lemma add_more_tags_eq_some (t : Track) (r : PageTrackResp) (L : LyricsSection)
    (w : String) (hl : r.lyrics = some L) (hw : L.writers = some w) :
    add_more_tags t r = .ok
      { t with
        md5_origin := some r.md5_origin
        media_version := some r.media_version
        composer := (normContrib r.contributors).1
        author := (normContrib r.contributors).2
        copyright := some r.copyright
        lyrics := L.text
        lyrics_sync := L.sync
        lyrics_copyrights := L.copyrights
        lyrics_writers := some (pySplit w ", ") } := by
  cases hc : r.contributors <;> simp [add_more_tags, normContrib, hl, hw, hc]

/-- Hydration with a well-shaped response succeeds on every track and
sets the origin hash and media version. -/
lemma add_more_tags_total (t : Track) (r : PageTrackResp) (hr : hydShapeOk r = true) :
    ∃ t2, add_more_tags t r = .ok t2 ∧ t2.md5_origin = some r.md5_origin ∧
      t2.media_version = some r.media_version := by
  unfold hydShapeOk at hr
  cases hl : r.lyrics with
  | none => exact ⟨_, add_more_tags_eq_none t r hl, by simp, by simp⟩
  | some L =>
    rw [hl] at hr
    obtain ⟨w, hw⟩ := Option.isSome_iff_exists.mp hr
    exact ⟨_, add_more_tags_eq_some t r L w hl hw, by simp, by simp⟩

/-- A track-lookup error payload that carries an entity id. -/
def errInfoWithId : TrackInfo :=
  { id := some 1, error := some ⟨"DataException", "no data", 800⟩, core := ⟨0, "", ""⟩ }

/-- A track-lookup error payload without the id key, as the provider's
real error responses are shaped. -/
def errInfoNoId : TrackInfo :=
  { id := none, error := some ⟨"DataException", "no data", 800⟩, core := ⟨0, "", ""⟩ }

/-- An album-lookup error payload carrying an entity id. -/
def errAlbumInfo : AlbumInfo :=
  { id := some 2, error := some ⟨"DataException", "no data", 800⟩,
    artist := "", title := "", tracks_data := [] }

/-- C4 counterexample: resolving an error payload raises the upstream
error, but an entry for the looked-up ID *is* left in the cache —
`__new__` caches before `__init__` validates — so "no entry for that
lookup is cached" fails; and an error payload without an id key raises
`KeyError` instead of the upstream error. -/
theorem track_error_payload_cached_counterexample :
    (track_construct errInfoWithId CacheState.empty).2
      = .error (.deezerApiError "DataException" "no data" 800) ∧
    ((track_construct errInfoWithId CacheState.empty).1.trackCache.lookup 1).isSome = true ∧
    (track_construct errInfoNoId CacheState.empty).2 = .error .keyError :=
  ⟨rfl, rfl, rfl⟩

/-- C4 (amended): for every entity-lookup response containing an error
payload together with the entity id, construction raises
`DeezerApiError` carrying the provider's error type, message and code,
but the instance allocated by `__new__` remains cached under that id
(for tracks and albums alike); a response whose error payload lacks
the id key raises `KeyError` before the error object is examined. -/
theorem error_payload_raises_but_caches (s : CacheState) (info : TrackInfo)
    (ainfo : AlbumInfo) (i j : Nat) (e e2 : ApiErrorPayload)
    (hid : info.id = some i) (herr : info.error = some e)
    (haid : ainfo.id = some j) (haerr : ainfo.error = some e2) :
    ((track_construct info s).2 = .error (.deezerApiError e.etype e.message e.code) ∧
      ((track_construct info s).1.trackCache.lookup i).isSome = true) ∧
    ((album_construct ainfo s).2 = .error (.deezerApiError e2.etype e2.message e2.code) ∧
      ((album_construct ainfo s).1.albumCache.lookup j).isSome = true) ∧
    (∀ info2 : TrackInfo, info2.id = none →
      (track_construct info2 s).2 = .error .keyError) := by
  refine ⟨⟨?_, ?_⟩, ⟨?_, ?_⟩, fun info2 h2 => by simp [track_construct, h2]⟩
  · simp [track_construct, hid, herr]
  · rcases hl : s.trackCache.lookup i with - | ref <;>
      simp [track_construct, hid, herr, hl, List.lookup]
  · simp [album_construct, haid, haerr]
  · rcases hl : s.albumCache.lookup j with - | ref <;>
      simp [album_construct, haid, haerr, hl, List.lookup]

/-- Witness for the amended C4 at the concrete error payloads. -/
theorem error_payload_raises_but_caches_witness :
    ((track_construct errInfoWithId CacheState.empty).1.trackCache.lookup 1).isSome = true :=
  ((error_payload_raises_but_caches CacheState.empty errInfoWithId errAlbumInfo 1 2
    ⟨"DataException", "no data", 800⟩ ⟨"DataException", "no data", 800⟩
    rfl rfl rfl rfl).1).2

/-- Updating an association list at a present key makes lookup return
the new value. -/
lemma lookup_assocSet (k : Nat) (v : α) (l : List (Nat × α)) (w : α)
    (hw : l.lookup k = some w) : (assocSet k v l).lookup k = some v := by
  induction l with
  | nil => simp [List.lookup] at hw
  | cons p ps ih =>
    obtain ⟨a, b⟩ := p
    by_cases hp : a = k
    · subst hp
      have h1 : assocSet a v ((a, b) :: ps)
          = (a, v) :: (ps.map fun p => if p.1 = a then (a, v) else p) := by
        simp [assocSet]
      rw [h1]
      simp [List.lookup]
    · have hk : (k == a) = false := beq_eq_false_iff_ne.mpr (Ne.symm hp)
      have h1 : assocSet k v ((a, b) :: ps) = (a, b) :: assocSet k v ps := by
        simp [assocSet, hp]
      have h2 : List.lookup k ((a, b) :: ps) = List.lookup k ps := by
        simp [List.lookup, hk]
      have h3 : List.lookup k ((a, b) :: assocSet k v ps)
          = List.lookup k (assocSet k v ps) := by
        simp [List.lookup, hk]
      rw [h2] at hw
      rw [h1, h3]
      exact ih hw

/-- Hydrating through a reference with a stored instance updates the
store in place: a later lookup through any alias of that reference
sees the hydrated extended tags. -/
lemma hydrate_ref_lookup (s : CacheState) (ref : Nat) (r : PageTrackResp) (t0 : Track)
    (hst : s.trackStore.lookup ref = some t0) (hr : hydShapeOk r = true) :
    ∃ t2, (hydrate_ref ref r s).1.trackStore.lookup ref = some t2 ∧
      t2.md5_origin = some r.md5_origin ∧ t2.media_version = some r.media_version := by
  obtain ⟨t2, h2, hm, hv⟩ := add_more_tags_total t0 r hr
  refine ⟨t2, ?_, hm, hv⟩
  simp only [hydrate_ref, hst, Option.getD_some, h2]
  exact lookup_assocSet ref t2 s.trackStore t0 hst

/-- C5: resolving the same track ID twice — directly or through
album-track expansion — returns the identical cached instance: the
second construction yields the same reference and adds no cache entry,
an album whose payload embeds the same track summary materializes the
very same reference, and extended tags hydrated through the shared
reference are visible through every alias of it. -/
theorem entity_cache_identity (s : CacheState) (infoA infoB : TrackInfo)
    (ainfo : AlbumInfo) (i j : Nat)
    (hA : infoA.id = some i) (hB : infoB.id = some i)
    (heA : infoA.error = none) (heB : infoB.error = none)
    (hnew : s.trackCache.lookup i = none)
    (haid : ainfo.id = some j) (haerr : ainfo.error = none)
    (hatr : ainfo.tracks_data = [infoB])
    (hanew : s.albumCache.lookup j = none) :
    (track_construct infoA s).2 = .ok s.next ∧
    (track_construct infoB (track_construct infoA s).1).2 = .ok s.next ∧
    (track_construct infoB (track_construct infoA s).1).1.trackCache
      = (track_construct infoA s).1.trackCache ∧
    (∀ r : PageTrackResp, hydShapeOk r = true →
      ∃ t2, (hydrate_ref s.next r
          (track_construct infoB (track_construct infoA s).1).1).1.trackStore.lookup s.next
        = some t2 ∧ t2.md5_origin = some r.md5_origin ∧
        t2.media_version = some r.media_version) ∧
    (∃ aref,
      (album_construct ainfo (track_construct infoB (track_construct infoA s).1).1).2
        = .ok aref ∧
      (fetch_tracks aref
        (album_construct ainfo (track_construct infoB (track_construct infoA s).1).1).1).2
        = .ok [s.next]) := by
  refine ⟨?_, ?_, ?_, ?_, ?_⟩
  · simp [track_construct, hA, heA, hnew]
  · simp [track_construct, hA, hB, heA, heB, hnew, assocSet, List.lookup]
  · simp [track_construct, hA, hB, heA, heB, hnew, assocSet, List.lookup]
  · intro r hr
    have hst : ∃ t0,
        (track_construct infoB (track_construct infoA s).1).1.trackStore.lookup s.next
          = some t0 := by
      simp [track_construct, hA, hB, heA, heB, hnew, assocSet, List.lookup]
    obtain ⟨t0, hst⟩ := hst
    exact hydrate_ref_lookup _ s.next r t0 hst hr
  · refine ⟨s.next + 1, ?_, ?_⟩ <;>
      simp [album_construct, fetch_tracks, tracks_construct, track_construct,
        hA, hB, heA, heB, hnew, haid, haerr, hatr, hanew, assocSet, List.lookup]

/-- A first lookup payload for track ID 5. -/
def infoT1 : TrackInfo := { id := some 5, error := none, core := ⟨10, "Art", "Ti"⟩ }

/-- A second lookup payload for the same track ID 5. -/
def infoT2 : TrackInfo := { id := some 5, error := none, core := ⟨10, "Art", "Ti"⟩ }

/-- An album payload embedding the track-5 summary. -/
def infoAl : AlbumInfo :=
  { id := some 9, error := none, artist := "Art", title := "Alb", tracks_data := [infoT2] }

/-- Witness for C5: the second construction of track ID 5 returns the
reference allocated by the first. -/
theorem entity_cache_identity_witness :
    (track_construct infoT2 (track_construct infoT1 CacheState.empty).1).2 = .ok 0 :=
  (entity_cache_identity CacheState.empty infoT1 infoT2 infoAl 5 9
    rfl rfl rfl rfl rfl rfl rfl rfl rfl).2.1
